import Mathlib

/-!
Shallow embedding of `src/autotrain/trainers/clm.py` (the `train` pipeline of
the autotrain-advanced causal-LM trainer) and proofs about the claims of its
specification.

External collaborators (dataset hub, tokenizer, model, the HF `Trainer`) are
modelled by their observable inputs/outputs: the tokenizer contributes its
intrinsic `model_max_length`, datasets contribute their record counts and raw
token streams, and the trainer receives the assembled argument bundle and
callback list.  Machine floats in `int(0.2 * len / batch)` are modelled by
exact rational arithmetic with truncation toward zero.
-/

namespace AutotrainClm

/-- The flat configuration record `utils.LLMTrainingParams`, holding exactly
the fields `train` reads (field types follow their use in the source;
`block_size` is `Option Int`: `none` models Python `None`, the sentinel `-1`
is a plain value). -/
structure LLMTrainingParams where
  model_name : String
  data_path : String
  train_split : String
  valid_split : Option String
  huggingface_token : Option String
  model_max_length : Nat
  block_size : Option Int
  use_peft : Bool
  use_int8 : Bool
  lora_r : Nat
  lora_alpha : Nat
  lora_dropout : ℚ
  logging_steps : Int
  project_name : String
  train_batch_size : Nat
  eval_batch_size : Nat
  learning_rate : ℚ
  num_train_epochs : Nat
  evaluation_strategy : String
  save_total_limit : Nat
  save_strategy : String
  gradient_accumulation_steps : Nat
  auto_find_batch_size : Bool
  scheduler : String
  optimizer : String
  warmup_ratio : ℚ
  weight_decay : ℚ
  max_grad_norm : ℚ
  fp16 : Bool
  push_to_hub : Bool
  repo_id : String
  deriving Repr, DecidableEq

/-- Lines 44-45: `if tokenizer.model_max_length > 2048: tokenizer.model_max_length
= config.model_max_length`.  Returns the tokenizer's `model_max_length` after
the setup mutation, given its intrinsic (as-loaded) value. -/
def prepareTokenizerMaxLength (intrinsic : Nat) (config_model_max_length : Nat) : Nat :=
  if intrinsic > 2048 then config_model_max_length else intrinsic

/-- Lines 99-117: block-size resolution.  `bs` is `config.block_size` (with the
`-1` sentinel first normalized to `None`), `mml` the tokenizer's
`model_max_length` at that point.  Returns the local `block_size` value the
source computes. -/
def resolveBlockSize (bs : Option Int) (mml : Nat) : Int :=
  let bs := if bs = some (-1) then none else bs
  match bs with
  | none => if (mml : Int) > 1024 then 1024 else (mml : Int)
  | some b => min b (mml : Int)

/-- Line 119: `config.block_size = block_size`, the single write-back into the
config after resolution. -/
def writeBackBlockSize (c : LLMTrainingParams) (mml : Nat) : LLMTrainingParams :=
  { c with block_size := some (resolveBlockSize c.block_size mml) }

/-- Python `int(q)` on a float expression, modelled by truncation toward zero
on exact rationals. -/
def pyInt (q : ℚ) : Int :=
  if 0 ≤ q then ⌊q⌋ else -⌊-q⌋

/-- Lines 160-169: resolution of the logging frequency.  `validSplit` records
whether `config.valid_split is not None`; `validLen`/`trainLen` are the
lengths of the processed splits. -/
def resolveLoggingSteps (configured : Int) (validSplit : Bool)
    (validLen trainLen batch : Nat) : Int :=
  if configured = -1 then
    let ls := if validSplit then pyInt ((0.2 : ℚ) * validLen / batch)
              else pyInt ((0.2 : ℚ) * trainLen / batch)
    if ls = 0 then 1 else ls
  else configured

/-- The training-argument bundle built at lines 171-192 (the fields of the
`training_args` dict, in source order). -/
structure TrainingArgsModel where
  output_dir : String
  per_device_train_batch_size : Nat
  per_device_eval_batch_size : Nat
  learning_rate : ℚ
  num_train_epochs : Nat
  evaluation_strategy : String
  logging_steps : Int
  save_total_limit : Nat
  save_strategy : String
  gradient_accumulation_steps : Nat
  report_to : String
  auto_find_batch_size : Bool
  lr_scheduler_type : String
  optim : String
  warmup_ratio : ℚ
  weight_decay : ℚ
  max_grad_norm : ℚ
  fp16 : Bool
  push_to_hub : Bool
  load_best_model_at_end : Bool
  deriving Repr, DecidableEq

/-- Lines 171-192: assembly of `training_args` from the config, the resolved
logging frequency and the presence of the validation split. -/
def buildTrainingArgs (c : LLMTrainingParams) (logging_steps : Int) : TrainingArgsModel :=
  { output_dir := c.project_name
    per_device_train_batch_size := c.train_batch_size
    per_device_eval_batch_size := c.eval_batch_size
    learning_rate := c.learning_rate
    num_train_epochs := c.num_train_epochs
    evaluation_strategy := if c.valid_split.isSome then c.evaluation_strategy else "no"
    logging_steps := logging_steps
    save_total_limit := c.save_total_limit
    save_strategy := c.save_strategy
    gradient_accumulation_steps := c.gradient_accumulation_steps
    report_to := "tensorboard"
    auto_find_batch_size := c.auto_find_batch_size
    lr_scheduler_type := c.scheduler
    optim := c.optimizer
    warmup_ratio := c.warmup_ratio
    weight_decay := c.weight_decay
    max_grad_norm := c.max_grad_norm
    fp16 := c.fp16
    push_to_hub := false
    load_best_model_at_end := if c.valid_split.isSome then true else false }

/-- The two optional trainer callbacks from `autotrain.trainers.callbacks`. -/
inductive Callback where
  | SavePeftModelCallback
  | LoadBestPeftModelCallback
  deriving Repr, DecidableEq

/-- Lines 196-200: the callback list handed to the `Trainer`. -/
def buildCallbacks (use_peft : Bool) (validSplit : Bool) : List Callback :=
  if use_peft then
    if validSplit then [.SavePeftModelCallback, .LoadBestPeftModelCallback]
    else [.SavePeftModelCallback]
  else []

/-- The observable post-training actions of lines 222-237 (save, optional
adapter merge, optional hub publication). -/
inductive PostAction where
  | saveModel
  | mergeAdapter
  | createRepo
  | uploadFolder
  deriving Repr, DecidableEq

/-- Lines 222-237: the sequence of post-training actions `train` performs on the
success path. -/
def postTrainingActions (c : LLMTrainingParams) : List PostAction :=
  [.saveModel]
    ++ (if c.use_peft then [.mergeAdapter] else [])
    ++ (if c.push_to_hub then [.createRepo, .uploadFolder] else [])

/-- Modelled from the spec: `utils.group_texts` (called at lines 124, 143-156;
its body lives in `autotrain/trainers/utils.py`, which is not part of this
source tree).  "Concatenates token sequences within a batch and re-chunks them
into fixed-width blocks of size `block_size`, discarding any trailing
remainder shorter than one block.  Produces input/label pairs identical to the
input block."  The first component is `input_ids`, the second `labels`. -/
def group_texts (block_size : Nat) (examples : List (List Nat)) :
    List (List Nat) × List (List Nat) :=
  let concatenated := examples.flatten
  let total_length := (concatenated.length / block_size) * block_size
  let input_ids := (List.range (total_length / block_size)).map
    (fun i => (concatenated.drop (i * block_size)).take block_size)
  (input_ids, input_ids)

/-- Python `dict.get(key)` on an association list: the value at `key` if
present, `None` otherwise (the lookup at line 95,
`utils.TARGET_MODULES.get(config.model_name)`). -/
def dictGet (table : List (String × List String)) (key : String) :
    Option (List String) :=
  (table.find? (fun kv => kv.1 == key)).map (fun kv => kv.2)

/-- The adapter configuration built at lines 89-96 (the `LoraConfig` fields the
source sets). -/
structure LoraConfigModel where
  r : Nat
  lora_alpha : Nat
  lora_dropout : ℚ
  bias : String
  task_type : String
  target_modules : Option (List String)
  deriving Repr, DecidableEq

/-- Modelled from the spec: `utils.TARGET_MODULES` is "a static table keyed by
model identifier" living in `autotrain/trainers/utils.py`, outside this source
tree; it is taken here as an arbitrary association list `table`.  Lines 89-96
build the `LoraConfig` from the config's adapter hyperparameters and the
table lookup. -/
def buildLoraConfig (table : List (String × List String))
    (c : LLMTrainingParams) : LoraConfigModel :=
  { r := c.lora_r
    lora_alpha := c.lora_alpha
    lora_dropout := c.lora_dropout
    bias := "none"
    task_type := "CAUSAL_LM"
    target_modules := dictGet table c.model_name }

/-- The observable outcome of one run of `train` (lines 22-237): the final
tokenizer limit, the final config, the resolved block size, the processed
splits, the trainer inputs and the post-training actions. -/
structure TrainResult where
  tokenizer_model_max_length : Nat
  config : LLMTrainingParams
  block_size : Int
  train_blocks : List (List Nat) × List (List Nat)
  valid_blocks : Option (List (List Nat) × List (List Nat))
  lora_config : Option LoraConfigModel
  training_args : TrainingArgsModel
  callbacks : List Callback
  post_actions : List PostAction
  deriving Repr

/-- The `train` pipeline of lines 22-237, as a pure function of the config and
the observable behaviour of its external collaborators: `intrinsic_mml` is the
loaded tokenizer's own `model_max_length`, `raw_train`/`raw_valid` are the
token-id sequences the tokenization stage produces for each split, and
`target_modules_table` stands for `utils.TARGET_MODULES`. -/
def train (c0 : LLMTrainingParams) (intrinsic_mml : Nat)
    (raw_train raw_valid : List (List Nat))
    (target_modules_table : List (String × List String)) : TrainResult :=
  -- lines 44-45: clamp the tokenizer's limit once
  let mml := prepareTokenizerMaxLength intrinsic_mml c0.model_max_length
  -- lines 99-119: resolve the block size and write it back into the config
  let block_size := resolveBlockSize c0.block_size mml
  let c := writeBackBlockSize c0 mml
  -- lines 89-97: adapter configuration (adapter mode only)
  let lora := if c.use_peft then some (buildLoraConfig target_modules_table c) else none
  -- lines 143-156: group both splits into fixed-width blocks
  let train_blocks := group_texts block_size.toNat raw_train
  let valid_blocks := if c.valid_split.isSome
    then some (group_texts block_size.toNat raw_valid) else none
  -- lines 160-169: resolve the logging frequency over the processed splits
  let logging_steps := resolveLoggingSteps c.logging_steps c.valid_split.isSome
    (match valid_blocks with | some vb => vb.1.length | none => 0)
    train_blocks.1.length c.train_batch_size
  { tokenizer_model_max_length := mml
    config := c
    block_size := block_size
    train_blocks := train_blocks
    valid_blocks := valid_blocks
    lora_config := lora
    training_args := buildTrainingArgs c logging_steps
    callbacks := buildCallbacks c.use_peft c.valid_split.isSome
    post_actions := postTrainingActions c }

/-- The fallible external calls `train` makes, in source order, each modelled
as an `Except` value: raising an exception is `Except.error e`.  `train` has
no `try`/`except` anywhere (lines 22-237), so each call site is a plain
monadic bind. -/
structure ExternalCalls (E : Type) where
  loadTrainData : Except E (List (List Nat))
  loadValidData : Except E (List (List Nat))
  loadTokenizer : Except E Nat
  loadModelConfig : Except E Unit
  loadModel : Except E Unit
  runTraining : Except E Unit
  saveModel : Except E Unit
  mergeAdapter : Except E Unit
  createRepo : Except E Unit
  uploadFolder : Except E Unit

/-- The `train` pipeline with its fallible external calls made explicit:
every stage is sequenced by plain bind, exactly as the straight-line source
(lines 22-237) sequences its calls with no surrounding handler.  The
validation-split load runs only when `valid_split` is set (line 31), the
adapter merge only under `use_peft` (line 225), the repo creation and upload
only under `push_to_hub` (line 233). -/
def trainE {E : Type} (c0 : LLMTrainingParams) (ext : ExternalCalls E)
    (table : List (String × List String)) : Except E TrainResult := do
  let raw_train ← ext.loadTrainData
  let raw_valid ← if c0.valid_split.isSome then ext.loadValidData else pure []
  let intrinsic ← ext.loadTokenizer
  let _ ← ext.loadModelConfig
  let _ ← ext.loadModel
  let result := train c0 intrinsic raw_train raw_valid table
  let _ ← ext.runTraining
  let _ ← ext.saveModel
  let _ ← if c0.use_peft then ext.mergeAdapter else pure ()
  let _ ← if c0.push_to_hub then do
            let _ ← ext.createRepo
            ext.uploadFolder
          else pure ()
  return result

/-- The error of the first failing external call, in the source's stage order,
skipping the stages the config disables (validation load, merge, publish). -/
def firstFailure {E : Type} (c0 : LLMTrainingParams) (ext : ExternalCalls E) :
    Option E :=
  match ext.loadTrainData with
  | .error e => some e
  | .ok _ =>
  match (if c0.valid_split.isSome then ext.loadValidData else .ok []) with
  | .error e => some e
  | .ok _ =>
  match ext.loadTokenizer with
  | .error e => some e
  | .ok _ =>
  match ext.loadModelConfig with
  | .error e => some e
  | .ok _ =>
  match ext.loadModel with
  | .error e => some e
  | .ok _ =>
  match ext.runTraining with
  | .error e => some e
  | .ok _ =>
  match ext.saveModel with
  | .error e => some e
  | .ok _ =>
  match (if c0.use_peft then ext.mergeAdapter else .ok ()) with
  | .error e => some e
  | .ok _ =>
  match (if c0.push_to_hub then ext.createRepo else .ok ()) with
  | .error e => some e
  | .ok _ =>
  match (if c0.push_to_hub then ext.uploadFolder else .ok ()) with
  | .error e => some e
  | .ok _ => none

/-- A concrete configuration (values follow the `__main__` example of the
source and the defaults its fields suggest), used to instantiate theorems. -/
def sampleConfig : LLMTrainingParams :=
  { model_name := "gpt2"
    data_path := "tatsu-lab/alpaca"
    train_split := "train"
    valid_split := none
    huggingface_token := none
    model_max_length := 2048
    block_size := some (-1)
    use_peft := true
    use_int8 := false
    lora_r := 16
    lora_alpha := 32
    lora_dropout := 1/20
    logging_steps := -1
    project_name := "output"
    train_batch_size := 2
    eval_batch_size := 2
    learning_rate := 3/10000
    num_train_epochs := 1
    evaluation_strategy := "epoch"
    save_total_limit := 1
    save_strategy := "epoch"
    gradient_accumulation_steps := 1
    auto_find_batch_size := false
    scheduler := "linear"
    optimizer := "adamw_torch"
    warmup_ratio := 1/10
    weight_decay := 0
    max_grad_norm := 1
    fp16 := false
    push_to_hub := false
    repo_id := "user/autotrain-llm" }

/-- C1: when the configured block size is set (neither `None` nor the `-1`
sentinel) and positive, the resolved block size is `min b m` for tokenizer
maximum length `m`; when unset it is `min 1024 m`; and the resolved value is
written back into the config's `block_size` field. -/
theorem c1_block_size_resolution (c : LLMTrainingParams) (mml : Nat) :
    (∀ b : Int, c.block_size = some b → b ≠ -1 → 0 < b →
      resolveBlockSize c.block_size mml = min b (mml : Int)) ∧
    ((c.block_size = none ∨ c.block_size = some (-1)) →
      resolveBlockSize c.block_size mml = min 1024 (mml : Int)) ∧
    (writeBackBlockSize c mml).block_size = some (resolveBlockSize c.block_size mml) := by
  refine ⟨?_, ?_, rfl⟩
  · intro b hb hne _
    simp [resolveBlockSize, hb, hne]
  · rintro (h | h) <;> simp only [resolveBlockSize, h] <;> norm_num <;> split <;> omega

/-- Witness for C1 at concrete inputs: a set positive block size of 512 with
tokenizer limit 1024, and the `-1` sentinel with tokenizer limit 1024. -/
theorem c1_block_size_resolution_witness :
    resolveBlockSize (some 512) 1024 = min 512 (1024 : Int) ∧
    resolveBlockSize (some (-1)) 1024 = min 1024 (1024 : Int) := by
  constructor
  · exact (c1_block_size_resolution { sampleConfig with block_size := some 512 } 1024).1
      512 rfl (by decide) (by decide)
  · exact (c1_block_size_resolution { sampleConfig with block_size := some (-1) } 1024).2.1
      (Or.inr rfl)

/-- Counterexample to C2 as stated: positivity fails on two configurations.
With configured block size `0` (set, not the sentinel) and tokenizer maximum
length 2048, the resolved block size is `min 0 2048 = 0` — the source
validates nothing about nonpositive configured block sizes.  And with the
block size unset and a tokenizer maximum length of 0, the resolved block size
is 0 as well. -/
theorem c2_positivity_counterexample :
    ¬ (0 < resolveBlockSize (some 0) 2048) ∧
    ¬ (0 < resolveBlockSize none 0) := by decide

/-- C2 (amended): once resolution has run the resolved block size never
exceeds the tokenizer's maximum length — unconditionally; it is strictly
positive provided the tokenizer's maximum length is positive and the
configured block size is unset (None or the `-1` sentinel) or positive. -/
theorem c2_block_size_invariant (c : LLMTrainingParams) (mml : Nat) :
    resolveBlockSize c.block_size mml ≤ (mml : Int) ∧
    ((0 < mml ∧ (c.block_size = none ∨ c.block_size = some (-1) ∨
        ∃ b : Int, c.block_size = some b ∧ 0 < b)) →
      0 < resolveBlockSize c.block_size mml) := by
  constructor
  · rcases hcb : c.block_size with _ | b
    · simp only [resolveBlockSize, hcb] ; norm_num ; split <;> omega
    · by_cases hb1 : b = -1
      · subst hb1
        simp only [resolveBlockSize, hcb] ; norm_num ; split <;> omega
      · simp only [resolveBlockSize, hcb]
        simp [hb1]
  · rintro ⟨hm, h | h | ⟨b, hb, hpos⟩⟩
    · simp only [resolveBlockSize, h] ; norm_num ; split <;> omega
    · simp only [resolveBlockSize, h] ; norm_num ; split <;> omega
    · have hne : b ≠ -1 := by omega
      simp only [resolveBlockSize, hb]
      simp [hne]
      omega

/-- Witness for C2 (amended) at the sample config (sentinel block size) and
tokenizer limit 1024, discharging the positivity hypothesis there. -/
theorem c2_block_size_invariant_witness :
    resolveBlockSize sampleConfig.block_size 1024 ≤ (1024 : Int) ∧
    0 < resolveBlockSize sampleConfig.block_size 1024 :=
  ⟨(c2_block_size_invariant sampleConfig 1024).1,
   (c2_block_size_invariant sampleConfig 1024).2 ⟨by decide, Or.inr (Or.inl rfl)⟩⟩

/-- In exact arithmetic, Python's `int(0.2 * L / B)` is the natural-number
division `L / (5 * B)`. -/
lemma pyInt_point_two_mul_div (L B : Nat) :
    pyInt ((0.2 : ℚ) * L / B) = ((L / (5 * B) : Nat) : Int) := by
  have hq : (0.2 : ℚ) * L / B = (L : ℚ) / ((5 * B : Nat) : ℚ) := by
    rw [show (0.2 : ℚ) = 1 / 5 by norm_num, div_mul_eq_mul_div, one_mul, div_div]
    push_cast
    ring_nf
  have hnn : (0 : ℚ) ≤ (L : ℚ) / ((5 * B : Nat) : ℚ) := by positivity
  rw [pyInt, hq, if_pos hnn, ← Int.natCast_floor_eq_floor hnn, Nat.floor_div_eq_div]

/-- With the `-1` sentinel, the resolved logging frequency is the
natural-number division `L / (5 B)` over the selected split, floored to 1. -/
lemma resolveLoggingSteps_sentinel (validSplit : Bool) (vL tL B : Nat) :
    resolveLoggingSteps (-1) validSplit vL tL B =
      (if ((if validSplit then vL else tL) / (5 * B) : Nat) = 0 then 1
       else (((if validSplit then vL else tL) / (5 * B) : Nat) : Int)) := by
  cases validSplit
  · simp [resolveLoggingSteps, pyInt_point_two_mul_div]
    have hx : ((tL / (5 * B) : ℕ) : ℤ) = (tL : ℤ) / (5 * (B : ℤ)) := by
      push_cast
      rfl
    rw [← hx]
    split_ifs <;> omega
  · simp [resolveLoggingSteps, pyInt_point_two_mul_div]
    have hx : ((vL / (5 * B) : ℕ) : ℤ) = (vL : ℤ) / (5 * (B : ℤ)) := by
      push_cast
      rfl
    rw [← hx]
    split_ifs <;> omega

/-- Counterexample to C3 as stated: with no validation split, a sentinel
`logging_steps = -1`, a processed training split of length 10 and batch size
2, the resolved logging frequency is the auto-derived value 1, not the
configured sentinel — the derivation is not disabled by the absence of the
validation split, it merely falls back to the training split (lines
163-164). -/
theorem c3_logging_derivation_counterexample :
    resolveLoggingSteps (-1) false 0 10 2 = 1 ∧ (1 : Int) ≠ -1 := by
  refine ⟨?_, by decide⟩
  simpa using resolveLoggingSteps_sentinel false 0 10 2

/-- C3 (amended): with the validation split absent, the evaluation strategy
is "no", `load_best_model_at_end` is false and the best-adapter-reload
callback is never registered; logging-step auto-derivation is not disabled
but runs over the processed training split. -/
theorem c3_no_valid_split_behavior (c : LLMTrainingParams) (intrinsic : Nat)
    (rt rv : List (List Nat)) (tbl : List (String × List String))
    (h : c.valid_split = none) :
    (train c intrinsic rt rv tbl).training_args.evaluation_strategy = "no" ∧
    (train c intrinsic rt rv tbl).training_args.load_best_model_at_end = false ∧
    Callback.LoadBestPeftModelCallback ∉ (train c intrinsic rt rv tbl).callbacks ∧
    (train c intrinsic rt rv tbl).training_args.logging_steps =
      resolveLoggingSteps c.logging_steps false 0
        (train c intrinsic rt rv tbl).train_blocks.1.length c.train_batch_size := by
  cases hp : c.use_peft <;>
    simp [train, buildTrainingArgs, buildCallbacks, writeBackBlockSize, h, hp]

/-- Witness for C3 (amended) at the sample config (no validation split),
intrinsic tokenizer limit 1024 and one four-token training record. -/
theorem c3_no_valid_split_behavior_witness :
    (train sampleConfig 1024 [[1, 2, 3, 4]] [] []).training_args.evaluation_strategy = "no" ∧
    (train sampleConfig 1024 [[1, 2, 3, 4]] [] []).training_args.load_best_model_at_end = false ∧
    Callback.LoadBestPeftModelCallback ∉ (train sampleConfig 1024 [[1, 2, 3, 4]] [] []).callbacks ∧
    (train sampleConfig 1024 [[1, 2, 3, 4]] [] []).training_args.logging_steps =
      resolveLoggingSteps sampleConfig.logging_steps false 0
        (train sampleConfig 1024 [[1, 2, 3, 4]] [] []).train_blocks.1.length
        sampleConfig.train_batch_size :=
  c3_no_valid_split_behavior sampleConfig 1024 [[1, 2, 3, 4]] [] [] rfl

/-- C4: with the `-1` sentinel and positive batch size `B`, the resolved
logging frequency is `int(0.2 * L / B)` — in exact arithmetic `L / (5 B)` —
over the validation split when present, else the training split, floored to 1
when that division is 0; a non-sentinel configured value is used unchanged. -/
theorem c4_logging_steps_resolution (configured : Int) (validSplit : Bool)
    (vL tL B : Nat) (_hB : 0 < B) :
    (configured = -1 →
      resolveLoggingSteps configured validSplit vL tL B =
        (if ((if validSplit then vL else tL) / (5 * B) : Nat) = 0 then 1
         else (((if validSplit then vL else tL) / (5 * B) : Nat) : Int))) ∧
    (configured ≠ -1 →
      resolveLoggingSteps configured validSplit vL tL B = configured) := by
  constructor
  · rintro rfl
    exact resolveLoggingSteps_sentinel validSplit vL tL B
  · intro h
    simp [resolveLoggingSteps, h]

/-- Witness for C4: validation split of length 10 with batch size 2 resolves
the sentinel to 1, and a configured value 7 passes through unchanged. -/
theorem c4_logging_steps_resolution_witness :
    resolveLoggingSteps (-1) true 10 0 2 = 1 ∧
    resolveLoggingSteps 7 true 10 0 2 = 7 := by
  constructor
  · have h := (c4_logging_steps_resolution (-1) true 10 0 2 (by decide)).1 rfl
    simpa using h
  · exact (c4_logging_steps_resolution 7 true 10 0 2 (by decide)).2 (by decide)

/-- C5: the adapter-checkpoint callback is registered iff `use_peft` is on;
the best-adapter-reload callback iff `use_peft` is on and a validation split
exists; the post-training merge action runs iff `use_peft` is on; with
`use_peft` off the callback list is empty and no merge action is emitted. -/
theorem c5_adapter_callbacks_and_merge (c : LLMTrainingParams) (validSplit : Bool) :
    (Callback.SavePeftModelCallback ∈ buildCallbacks c.use_peft validSplit ↔
      c.use_peft = true) ∧
    (Callback.LoadBestPeftModelCallback ∈ buildCallbacks c.use_peft validSplit ↔
      (c.use_peft = true ∧ validSplit = true)) ∧
    (PostAction.mergeAdapter ∈ postTrainingActions c ↔ c.use_peft = true) ∧
    buildCallbacks false validSplit = [] ∧
    PostAction.mergeAdapter ∉ postTrainingActions { c with use_peft := false } := by
  cases hu : c.use_peft <;> cases validSplit <;> cases hp : c.push_to_hub <;>
    simp [buildCallbacks, postTrainingActions, hu, hp]

/-- Re-chunking: flattening the first `k` blocks of width `bs` recovers the
first `k * bs` elements of the concatenated sequence. -/
lemma flatten_chunks (l : List Nat) (bs : Nat) :
    ∀ k, k * bs ≤ l.length →
      ((List.range k).map (fun i => (l.drop (i * bs)).take bs)).flatten =
        l.take (k * bs) := by
  intro k
  induction k with
  | zero => simp
  | succ n ih =>
    intro hk
    have hmono : n * bs ≤ (n + 1) * bs := Nat.mul_le_mul_right bs (Nat.le_succ n)
    rw [List.range_succ, List.map_append, List.flatten_append, ih (le_trans hmono hk)]
    simp only [List.map_cons, List.map_nil, List.flatten_cons, List.flatten_nil,
      List.append_nil]
    rw [← List.take_add]
    congr 1
    ring

/-- C6: grouping a concatenated token stream of length `k * bs + r`
(`0 ≤ r < bs`, `0 < bs`) yields exactly `k` blocks, each of width `bs`, with
labels equal to inputs; when `r = 0` the blocks flatten back to the whole
stream, so no token is dropped. -/
theorem c6_group_texts_blocks (bs k r : Nat) (examples : List (List Nat))
    (hbs : 0 < bs) (hlen : examples.flatten.length = k * bs + r) (hr : r < bs) :
    (group_texts bs examples).1.length = k ∧
    (∀ blk ∈ (group_texts bs examples).1, blk.length = bs) ∧
    (group_texts bs examples).2 = (group_texts bs examples).1 ∧
    (r = 0 → (group_texts bs examples).1.flatten = examples.flatten) := by
  have hdiv : examples.flatten.length / bs = k := by
    rw [hlen, Nat.add_comm, Nat.add_mul_div_right r k hbs, Nat.div_eq_of_lt hr,
      Nat.zero_add]
  have htot : examples.flatten.length / bs * bs / bs = k := by
    rw [Nat.mul_div_cancel _ hbs, hdiv]
  refine ⟨?_, ?_, rfl, ?_⟩
  · simp only [group_texts, List.length_map, List.length_range]
    exact htot
  · intro blk hblk
    simp only [group_texts, List.mem_map, List.mem_range, htot] at hblk
    obtain ⟨i, hik, rfl⟩ := hblk
    have hle : (i + 1) * bs ≤ k * bs := Nat.mul_le_mul_right bs hik
    rw [Nat.succ_mul] at hle
    simp only [List.length_take, List.length_drop]
    have hx : i * bs + bs ≤ examples.flatten.length := by omega
    omega
  · intro hr0
    have hkbs : k * bs ≤ examples.flatten.length := by omega
    simp only [group_texts, htot]
    rw [flatten_chunks examples.flatten bs k hkbs]
    rw [show k * bs = examples.flatten.length by omega, List.take_length]

/-- Witness for C6: two records concatenating to 9 tokens with block size 4
yield exactly 2 blocks of width 4 with labels equal to inputs; the remainder
of length 1 is dropped. -/
theorem c6_group_texts_blocks_witness :
    (group_texts 4 [[1, 2, 3, 4], [5, 6, 7, 8, 9]]).1.length = 2 ∧
    (∀ blk ∈ (group_texts 4 [[1, 2, 3, 4], [5, 6, 7, 8, 9]]).1, blk.length = 4) ∧
    (group_texts 4 [[1, 2, 3, 4], [5, 6, 7, 8, 9]]).2 =
      (group_texts 4 [[1, 2, 3, 4], [5, 6, 7, 8, 9]]).1 ∧
    (1 = 0 → (group_texts 4 [[1, 2, 3, 4], [5, 6, 7, 8, 9]]).1.flatten =
      [[1, 2, 3, 4], [5, 6, 7, 8, 9]].flatten) :=
  c6_group_texts_blocks 4 2 1 [[1, 2, 3, 4], [5, 6, 7, 8, 9]]
    (by decide) (by decide) (by decide)

/-- C7: the tokenizer's `model_max_length` is overwritten with the configured
value exactly when its intrinsic value exceeds 2048, is otherwise unchanged,
ends up bounded by `max 2048 model_max_length`, and the pipeline's final
tokenizer limit equals the value right after this single setup mutation (no
later write occurs). -/
theorem c7_tokenizer_max_length (c : LLMTrainingParams) (intrinsic : Nat)
    (rt rv : List (List Nat)) (tbl : List (String × List String)) :
    prepareTokenizerMaxLength intrinsic c.model_max_length =
      (if 2048 < intrinsic then c.model_max_length else intrinsic) ∧
    prepareTokenizerMaxLength intrinsic c.model_max_length ≤
      max 2048 c.model_max_length ∧
    (train c intrinsic rt rv tbl).tokenizer_model_max_length =
      prepareTokenizerMaxLength intrinsic c.model_max_length := by
  refine ⟨rfl, ?_, rfl⟩
  unfold prepareTokenizerMaxLength
  split <;> omega

/-- C8: the pipeline's final config equals the initial config with only the
derived `block_size` field replaced; every other field is unchanged, listed
one by one. -/
theorem c8_config_frame (c : LLMTrainingParams) (intrinsic : Nat)
    (rt rv : List (List Nat)) (tbl : List (String × List String)) :
    (train c intrinsic rt rv tbl).config =
      { c with block_size := some (resolveBlockSize c.block_size
          (prepareTokenizerMaxLength intrinsic c.model_max_length)) } ∧
    (train c intrinsic rt rv tbl).config.model_name = c.model_name ∧
    (train c intrinsic rt rv tbl).config.data_path = c.data_path ∧
    (train c intrinsic rt rv tbl).config.train_split = c.train_split ∧
    (train c intrinsic rt rv tbl).config.valid_split = c.valid_split ∧
    (train c intrinsic rt rv tbl).config.huggingface_token = c.huggingface_token ∧
    (train c intrinsic rt rv tbl).config.model_max_length = c.model_max_length ∧
    (train c intrinsic rt rv tbl).config.use_peft = c.use_peft ∧
    (train c intrinsic rt rv tbl).config.use_int8 = c.use_int8 ∧
    (train c intrinsic rt rv tbl).config.lora_r = c.lora_r ∧
    (train c intrinsic rt rv tbl).config.lora_alpha = c.lora_alpha ∧
    (train c intrinsic rt rv tbl).config.lora_dropout = c.lora_dropout ∧
    (train c intrinsic rt rv tbl).config.logging_steps = c.logging_steps ∧
    (train c intrinsic rt rv tbl).config.project_name = c.project_name ∧
    (train c intrinsic rt rv tbl).config.train_batch_size = c.train_batch_size ∧
    (train c intrinsic rt rv tbl).config.eval_batch_size = c.eval_batch_size ∧
    (train c intrinsic rt rv tbl).config.learning_rate = c.learning_rate ∧
    (train c intrinsic rt rv tbl).config.num_train_epochs = c.num_train_epochs ∧
    (train c intrinsic rt rv tbl).config.evaluation_strategy = c.evaluation_strategy ∧
    (train c intrinsic rt rv tbl).config.save_total_limit = c.save_total_limit ∧
    (train c intrinsic rt rv tbl).config.save_strategy = c.save_strategy ∧
    (train c intrinsic rt rv tbl).config.gradient_accumulation_steps =
      c.gradient_accumulation_steps ∧
    (train c intrinsic rt rv tbl).config.auto_find_batch_size = c.auto_find_batch_size ∧
    (train c intrinsic rt rv tbl).config.scheduler = c.scheduler ∧
    (train c intrinsic rt rv tbl).config.optimizer = c.optimizer ∧
    (train c intrinsic rt rv tbl).config.warmup_ratio = c.warmup_ratio ∧
    (train c intrinsic rt rv tbl).config.weight_decay = c.weight_decay ∧
    (train c intrinsic rt rv tbl).config.max_grad_norm = c.max_grad_norm ∧
    (train c intrinsic rt rv tbl).config.fp16 = c.fp16 ∧
    (train c intrinsic rt rv tbl).config.push_to_hub = c.push_to_hub ∧
    (train c intrinsic rt rv tbl).config.repo_id = c.repo_id := by
  refine ⟨rfl, rfl, rfl, rfl, rfl, rfl, rfl, rfl, rfl, rfl, rfl, rfl, rfl, rfl, rfl,
    rfl, rfl, rfl, rfl, rfl, rfl, rfl, rfl, rfl, rfl, rfl, rfl, rfl, rfl, rfl, rfl⟩

/-- C9: `train` has no handler anywhere, so its result is an error exactly
when some external stage fails, and then it is precisely the first failing
stage's error, unchanged — no stage catches, retries or transforms a
failure. -/
theorem c9_error_propagation {E : Type} (c : LLMTrainingParams)
    (ext : ExternalCalls E) (table : List (String × List String)) (e : E) :
    trainE c ext table = Except.error e ↔ firstFailure c ext = some e := by
  unfold trainE firstFailure
  cases hv : c.valid_split.isSome <;> cases hp : c.use_peft <;> cases hh : c.push_to_hub <;>
    simp only [hv, hp, hh, Bool.false_eq_true, if_true, if_false, ite_true, ite_false] <;>
    rcases ext.loadTrainData with e1 | d1 <;>
    (try simp [Bind.bind, Except.instMonad, Except.bind, pure, Except.pure]) <;>
    rcases ext.loadValidData with e2 | d2 <;>
    (try simp [Bind.bind, Except.instMonad, Except.bind, pure, Except.pure]) <;>
    rcases ext.loadTokenizer with e3 | m3 <;>
    (try simp [Bind.bind, Except.instMonad, Except.bind, pure, Except.pure]) <;>
    rcases ext.loadModelConfig with e4 | u4 <;>
    (try simp [Bind.bind, Except.instMonad, Except.bind, pure, Except.pure]) <;>
    rcases ext.loadModel with e5 | u5 <;>
    (try simp [Bind.bind, Except.instMonad, Except.bind, pure, Except.pure]) <;>
    rcases ext.runTraining with e6 | u6 <;>
    (try simp [Bind.bind, Except.instMonad, Except.bind, pure, Except.pure]) <;>
    rcases ext.saveModel with e7 | u7 <;>
    (try simp [Bind.bind, Except.instMonad, Except.bind, pure, Except.pure]) <;>
    rcases ext.mergeAdapter with e8 | u8 <;>
    (try simp [Bind.bind, Except.instMonad, Except.bind, pure, Except.pure]) <;>
    rcases ext.createRepo with e9 | u9 <;>
    (try simp [Bind.bind, Except.instMonad, Except.bind, pure, Except.pure]) <;>
    rcases ext.uploadFolder with e10 | u10 <;>
    simp [Bind.bind, Except.instMonad, Except.bind, pure, Except.pure]

/-- C10: in adapter mode the `LoraConfig` lookup `TARGET_MODULES.get(model_name)`
falls back silently: a model identifier absent from the table yields
`target_modules = None` (no rejection), and an identifier present in the table
yields the table's explicit module list. -/
theorem c10_target_modules_fallback (table : List (String × List String))
    (c : LLMTrainingParams) :
    ((∀ kv ∈ table, kv.1 ≠ c.model_name) →
      (buildLoraConfig table c).target_modules = none) ∧
    ((∃ kv ∈ table, kv.1 = c.model_name) →
      ∃ mods, (buildLoraConfig table c).target_modules = some mods ∧
        (c.model_name, mods) ∈ table) := by
  constructor
  · intro h
    have hfind : table.find? (fun kv => kv.1 == c.model_name) = none := by
      rw [List.find?_eq_none]
      intro kv hkv
      simpa using h kv hkv
    simp [buildLoraConfig, dictGet, hfind]
  · rintro ⟨kv, hmem, hkey⟩
    have hsome : (table.find? (fun kv => kv.1 == c.model_name)).isSome := by
      rw [List.find?_isSome]
      exact ⟨kv, hmem, by simpa using hkey⟩
    obtain ⟨kv2, hfind⟩ := Option.isSome_iff_exists.mp hsome
    have hp := List.find?_some hfind
    have hmem2 : kv2 ∈ table := List.mem_of_find?_eq_some hfind
    refine ⟨kv2.2, ?_, ?_⟩
    · simp [buildLoraConfig, dictGet, hfind]
    · have he : kv2.1 = c.model_name := by simpa using hp
      rw [← he]
      simpa using hmem2

/-- Witness for C10: with a one-entry table for gpt2, a llama model name
falls back to `none` and the gpt2 name receives the explicit list. -/
theorem c10_target_modules_fallback_witness :
    (buildLoraConfig [("gpt2", ["c_attn"])]
      { sampleConfig with model_name := "openlm/open_llama_3b" }).target_modules = none ∧
    ∃ mods, (buildLoraConfig [("gpt2", ["c_attn"])] sampleConfig).target_modules =
      some mods ∧ ("gpt2", mods) ∈ [("gpt2", ["c_attn"])] := by
  constructor
  · exact (c10_target_modules_fallback [("gpt2", ["c_attn"])]
      { sampleConfig with model_name := "openlm/open_llama_3b" }).1 (by decide)
  · exact (c10_target_modules_fallback [("gpt2", ["c_attn"])] sampleConfig).2
      ⟨("gpt2", ["c_attn"]), by simp, rfl⟩

end AutotrainClm
